import Mathlib

/-!
# Verification of the FX barrier option pricing engine

Shallow embedding of `src/fx_barrier_option.ipynb` (class `FXBarrierOption`) over
the real numbers, together with spec-modelled definitions for the barrier pricing
layer that the repository documents but does not implement, and proofs of the
specified properties: pricing formulas, put-call parity, monotonicity in spot,
error behaviour, purity, in-out parity, barrier-field noninterference and the
concrete numerical scenario.
-/

open MeasureTheory Set

namespace VV

/-- Standard normal probability density, the mathematical function behind
`scipy.stats.norm.pdf`: `exp (-t^2/2) / sqrt (2*pi)`. -/
noncomputable def normPdf (t : ℝ) : ℝ :=
  Real.exp (-t ^ 2 / 2) / Real.sqrt (2 * Real.pi)

/-- Standard normal cumulative distribution, the mathematical function behind
`scipy.stats.norm.cdf`: the integral of `normPdf` over `(-oo, x]`. -/
noncomputable def normCdf (x : ℝ) : ℝ :=
  ∫ t in Set.Iic x, normPdf t

/-- The attributes stored by `FXBarrierOption.__init__`, in source order.
`barrier_level` and `barrier_type` default to `None` in the source, embedded as
`Option`s. -/
structure FXBarrierOption where
  spot_price : ℝ
  strike_price : ℝ
  time_to_maturity : ℝ
  volatility : ℝ
  domestic_rate : ℝ
  foreign_rate : ℝ
  barrier_level : Option ℝ
  barrier_type : Option String

/-- The exceptions the pricing code can raise: the explicit
`raise ValueError("Invalid option type. Choose 'call' or 'put'.")`, and the
implicit `ZeroDivisionError` from the plain-Python division
`spot_price / self.strike_price` when the stored strike is zero. -/
inductive PyError where
  | valueError (msg : String)
  | zeroDivisionError (msg : String)

/-- `FXBarrierOption.compute_d1`. The optional `spot_price` argument defaults to
the stored attribute (`if spot_price is None: spot_price = self.spot_price`).
Real division here is total, so this value-level embedding is faithful only
away from `strike_price = 0`; the `ZeroDivisionError` that Python raises at
`strike_price = 0` (from `spot_price / self.strike_price`, evaluated before
`np.log`) is modelled by `compute_d1_checked` below.  The remaining arithmetic
(`np.log`, `np.sqrt`, and the numpy-float division by `σ·√T`) warns rather
than raises in the source, returning NaN/inf junk values, matching total real
functions here. -/
noncomputable def FXBarrierOption.compute_d1 (o : FXBarrierOption)
    (spot_price : Option ℝ) : ℝ :=
  let spot := spot_price.getD o.spot_price
  (Real.log (spot / o.strike_price) +
      (o.domestic_rate - o.foreign_rate + 0.5 * o.volatility ^ 2) * o.time_to_maturity) /
    (o.volatility * Real.sqrt o.time_to_maturity)

/-- `FXBarrierOption.compute_d2`. The optional `d1` argument defaults to
`self.compute_d1()`. -/
noncomputable def FXBarrierOption.compute_d2 (o : FXBarrierOption)
    (d1 : Option ℝ) : ℝ :=
  d1.getD (o.compute_d1 none) - o.volatility * Real.sqrt o.time_to_maturity

/-- `FXBarrierOption.calculate_vanilla_price`.  Returns the Black-Scholes price
for `option_type = "call"` or `"put"`, and raises `ValueError` otherwise; the
raise is embedded as `Except.error`. -/
noncomputable def FXBarrierOption.calculate_vanilla_price (o : FXBarrierOption)
    (option_type : String) : Except PyError ℝ :=
  let d1 := o.compute_d1 none
  let d2 := o.compute_d2 (some d1)
  if option_type = "call" then
    Except.ok (o.spot_price * Real.exp (-o.foreign_rate * o.time_to_maturity) * normCdf d1 -
      o.strike_price * Real.exp (-o.domestic_rate * o.time_to_maturity) * normCdf d2)
  else if option_type = "put" then
    Except.ok (o.strike_price * Real.exp (-o.domestic_rate * o.time_to_maturity) * normCdf (-d2) -
      o.spot_price * Real.exp (-o.foreign_rate * o.time_to_maturity) * normCdf (-d1))
  else
    Except.error (PyError.valueError "Invalid option type. Choose call or put.")

/-- `compute_d1` with Python's error semantics made explicit: the plain-Python
division `spot_price / self.strike_price` raises `ZeroDivisionError` when the
stored strike is zero, and this happens before `np.log` is applied; away from
that case the method returns the value computed by `compute_d1`. -/
noncomputable def FXBarrierOption.compute_d1_checked (o : FXBarrierOption)
    (spot_price : Option ℝ) : Except PyError ℝ :=
  if o.strike_price = 0 then
    Except.error (PyError.zeroDivisionError "float division by zero")
  else
    Except.ok (o.compute_d1 spot_price)

/-- `calculate_vanilla_price` with Python's error semantics made explicit: the
body evaluates `d1 = self.compute_d1()` first, so a zero strike raises
`ZeroDivisionError` before the call/put/`ValueError` dispatch is reached;
otherwise the behaviour is that of `calculate_vanilla_price`. -/
noncomputable def FXBarrierOption.calculate_vanilla_price_checked
    (o : FXBarrierOption) (option_type : String) : Except PyError ℝ :=
  match o.compute_d1_checked none with
  | Except.error e => Except.error e
  | Except.ok _ => o.calculate_vanilla_price option_type

/-- The value produced by the `option_type == 'call'` branch of
`calculate_vanilla_price`. -/
noncomputable def callPx (o : FXBarrierOption) : ℝ :=
  o.spot_price * Real.exp (-o.foreign_rate * o.time_to_maturity) *
      normCdf (o.compute_d1 none) -
    o.strike_price * Real.exp (-o.domestic_rate * o.time_to_maturity) *
      normCdf (o.compute_d2 (some (o.compute_d1 none)))

/-- The value produced by the `option_type == 'put'` branch of
`calculate_vanilla_price`. -/
noncomputable def putPx (o : FXBarrierOption) : ℝ :=
  o.strike_price * Real.exp (-o.domestic_rate * o.time_to_maturity) *
      normCdf (-(o.compute_d2 (some (o.compute_d1 none)))) -
    o.spot_price * Real.exp (-o.foreign_rate * o.time_to_maturity) *
      normCdf (-(o.compute_d1 none))

/-- Each Python method, read as a state transformer on the object: the body of
`compute_d1` binds only local variables and assigns no attribute, so the
resulting object state is the incoming one. -/
noncomputable def compute_d1_step (o : FXBarrierOption) (spot_price : Option ℝ) :
    FXBarrierOption × ℝ :=
  (o, o.compute_d1 spot_price)

/-- `compute_d2` as a state transformer; no attribute is assigned. -/
noncomputable def compute_d2_step (o : FXBarrierOption) (d1 : Option ℝ) :
    FXBarrierOption × ℝ :=
  (o, o.compute_d2 d1)

/-- `calculate_vanilla_price` as a state transformer; no attribute is assigned. -/
noncomputable def calculate_vanilla_price_step (o : FXBarrierOption)
    (option_type : String) : FXBarrierOption × Except PyError ℝ :=
  (o, o.calculate_vanilla_price option_type)

/-- The option of the notebook test cell:
`FXBarrierOption(spot_price=100, strike_price=90, time_to_maturity=3,
volatility=0.16, domestic_rate=0.05, foreign_rate=0.03)`. -/
noncomputable def testOption : FXBarrierOption :=
  ⟨100, 90, 3, 0.16, 0.05, 0.03, none, none⟩

/-- An option whose volatility is negative (no constructor validation exists in
the source to reject it). -/
noncomputable def negVolOption : FXBarrierOption :=
  ⟨100, 90, 3, -1, 0.05, 0.03, none, none⟩

/-- An option whose strike is zero: the one nonpositive input on which the
source actually fails, with `ZeroDivisionError` rather than any validation
error. -/
noncomputable def zeroStrikeOption : FXBarrierOption :=
  ⟨100, 0, 3, 0.16, 0.05, 0.03, none, none⟩

/-- The test-cell market data with an up-and-out barrier at 150 stored in the
barrier fields. -/
noncomputable def barrierOption150 : FXBarrierOption :=
  ⟨100, 90, 3, 0.16, 0.05, 0.03, some 150, some "up-out"⟩

/-- The test-cell market data with the spot moved up to 110. -/
noncomputable def testOption110 : FXBarrierOption :=
  ⟨110, 90, 3, 0.16, 0.05, 0.03, none, none⟩

/-! ## Spec-modelled barrier pricing layer

The repository's README and the spec describe knock-in/knock-out barrier
pricing, but no barrier pricing code exists under `src/`; only the vanilla
pricer is implemented.  The definitions below are modelled from the spec. -/

/-- Modelled from the spec: barrier direction, `up` or `down` (§4.3; the code
under `src/` has no barrier pricing). -/
inductive BarrierDir where
  | up
  | down

/-- Modelled from the spec: the reflected-spot factor `(B/S)^(2*mu/sigma^2)`
with `mu = r_d - r_f - sigma^2/2`, the reflection-principle term of the
closed-form barrier formulas (§4.3; absent from `src/`). -/
noncomputable def reflectionFactor (o : FXBarrierOption) (B : ℝ) : ℝ :=
  (B / o.spot_price) ^
    ((2 * (o.domestic_rate - o.foreign_rate - o.volatility ^ 2 / 2)) / o.volatility ^ 2)

/-- Modelled from the spec: the flat-vol vanilla price at the option's own
strike, used as the parity reference (§4.3; absent from `src/`). -/
noncomputable def vanillaRef (o : FXBarrierOption) (right : String) : ℝ :=
  if right = "call" then callPx o else putPx o

/-- Modelled from the spec: spot already violates the barrier at evaluation
time (up: `S >= B`; down: `S <= B`), the §4.3 edge policy (absent from `src/`). -/
noncomputable def barrierBreached (dir : BarrierDir) (S B : ℝ) : Prop :=
  match dir with
  | BarrierDir.up => B ≤ S
  | BarrierDir.down => S ≤ B

noncomputable instance (dir : BarrierDir) (S B : ℝ) :
    Decidable (barrierBreached dir S B) := by
  unfold barrierBreached; cases dir <;> exact Real.decidableLE _ _

/-- Modelled from the spec: knock-out price — `0` when spot already violates
the barrier (§4.3 edge policy), otherwise the closed-form reflection-principle
price, vanilla minus the reflected-spot image term (§4.3; absent from `src/`). -/
noncomputable def knockOutPrice (o : FXBarrierOption) (dir : BarrierDir) (B : ℝ)
    (right : String) : ℝ :=
  if barrierBreached dir o.spot_price B then 0
  else
    vanillaRef o right -
      reflectionFactor o B *
        vanillaRef { o with spot_price := B ^ 2 / o.spot_price } right

/-- Modelled from the spec: knock-in price — equal to the vanilla price when
spot already violates the barrier (already activated, §4.3 edge policy), and
otherwise derived from the knock-out price via the in-out parity identity that
§4.3 names as the design basis (absent from `src/`). -/
noncomputable def knockInPrice (o : FXBarrierOption) (dir : BarrierDir) (B : ℝ)
    (right : String) : ℝ :=
  if barrierBreached dir o.spot_price B then vanillaRef o right
  else vanillaRef o right - knockOutPrice o dir B right

/-! ## Pure Black-Scholes functions of spot (for monotonicity analysis) -/

/-- `d1` as a function of spot alone, other parameters fixed. -/
noncomputable def d1fn (K T σ rd rf S : ℝ) : ℝ :=
  (Real.log (S / K) + (rd - rf + 0.5 * σ ^ 2) * T) / (σ * Real.sqrt T)

/-- `d2` as a function of spot alone, other parameters fixed. -/
noncomputable def d2fn (K T σ rd rf S : ℝ) : ℝ :=
  d1fn K T σ rd rf S - σ * Real.sqrt T

/-- The Black-Scholes call price as a function of spot alone. -/
noncomputable def bsCall (K T σ rd rf S : ℝ) : ℝ :=
  S * Real.exp (-rf * T) * normCdf (d1fn K T σ rd rf S) -
    K * Real.exp (-rd * T) * normCdf (d2fn K T σ rd rf S)

/-- The Black-Scholes put price as a function of spot alone. -/
noncomputable def bsPut (K T σ rd rf S : ℝ) : ℝ :=
  K * Real.exp (-rd * T) * normCdf (-(d2fn K T σ rd rf S)) -
    S * Real.exp (-rf * T) * normCdf (-(d1fn K T σ rd rf S))

/-! ## Polynomial bracket for the Gaussian integral (numerical scenario) -/

/-- Degree-13 odd polynomial: the term-by-term integral over `[0, q]` of the
order-7 Taylor partial sum of `exp (-t^2/2)`. -/
noncomputable def gaussPoly (q : ℝ) : ℝ :=
  q - q ^ 3 / 6 + q ^ 5 / 40 - q ^ 7 / 336 + q ^ 9 / 3456 - q ^ 11 / 42240 +
    q ^ 13 / 599040

/-- Rigorous truncation-error bound for `gaussPoly` against
`∫ t in 0..q, exp (-t^2/2)`, from the order-7 remainder bound of `Real.exp`. -/
noncomputable def gaussTail (q : ℝ) : ℝ :=
  (q ^ 2 / 2) ^ 7 * (8 / 35280) * q

/-! ## Basic lemmas about the embedded pricer -/

theorem calc_vanilla_call (o : FXBarrierOption) :
    o.calculate_vanilla_price "call" = Except.ok (callPx o) := rfl

theorem calc_vanilla_put (o : FXBarrierOption) :
    o.calculate_vanilla_price "put" = Except.ok (putPx o) := by
  unfold FXBarrierOption.calculate_vanilla_price
  rw [if_neg (by decide), if_pos rfl]
  rfl

theorem calc_vanilla_other (o : FXBarrierOption) (ot : String)
    (h1 : ot ≠ "call") (h2 : ot ≠ "put") :
    o.calculate_vanilla_price ot =
      Except.error (PyError.valueError "Invalid option type. Choose call or put.") := by
  unfold FXBarrierOption.calculate_vanilla_price
  rw [if_neg h1, if_neg h2]

/-! ## Analytic properties of the standard normal CDF -/

theorem normPdf_pos (t : ℝ) : 0 < normPdf t := by
  unfold normPdf
  have h2π : (0:ℝ) < 2 * Real.pi := by positivity
  positivity

theorem normPdf_neg (t : ℝ) : normPdf (-t) = normPdf t := by
  simp [normPdf, neg_sq]

theorem continuous_normPdf : Continuous normPdf :=
  (Real.continuous_exp.comp ((continuous_pow 2).neg.div_const 2)).div_const _

theorem normPdf_eq (t : ℝ) :
    normPdf t = Real.exp (-(1/2) * t ^ 2) / Real.sqrt (2 * Real.pi) := by
  unfold normPdf; congr 2; ring

theorem integrable_normPdf : Integrable normPdf := by
  have h : Integrable (fun t : ℝ => Real.exp (-(1/2) * t ^ 2)) :=
    integrable_exp_neg_mul_sq (by norm_num)
  have h2 := h.div_const (Real.sqrt (2 * Real.pi))
  exact h2.congr (Filter.Eventually.of_forall fun t => (normPdf_eq t).symm)

theorem integral_normPdf : ∫ t, normPdf t = 1 := by
  have heq : ∫ t, normPdf t =
      ∫ t, Real.exp (-(1/2) * t ^ 2) / Real.sqrt (2 * Real.pi) :=
    integral_congr_ae (Filter.Eventually.of_forall fun t => normPdf_eq t)
  rw [heq, integral_div, integral_gaussian]
  have hπ : Real.pi / (1/2) = 2 * Real.pi := by ring
  rw [hπ, div_self]
  exact (Real.sqrt_pos.mpr (by positivity)).ne'

theorem normCdf_nonneg (x : ℝ) : 0 ≤ normCdf x :=
  setIntegral_nonneg measurableSet_Iic fun t _ => (normPdf_pos t).le

theorem normCdf_add_neg (x : ℝ) : normCdf x + normCdf (-x) = 1 := by
  have h0 := integral_comp_neg_Iic (-x) normPdf
  simp only [normPdf_neg, neg_neg] at h0
  have h1 : normCdf (-x) = ∫ t in Set.Ioi x, normPdf t := h0
  rw [h1, normCdf,
    intervalIntegral.integral_Iic_add_Ioi integrable_normPdf.integrableOn
      integrable_normPdf.integrableOn]
  exact integral_normPdf

theorem normCdf_le_one (x : ℝ) : normCdf x ≤ 1 := by
  have h := normCdf_add_neg x
  have h2 := normCdf_nonneg (-x)
  linarith

theorem normCdf_zero : normCdf 0 = 1/2 := by
  have h := normCdf_add_neg 0
  rw [neg_zero] at h
  linarith

theorem normCdf_mono : Monotone normCdf := fun a b hab =>
  setIntegral_mono_set integrable_normPdf.integrableOn
    (Filter.Eventually.of_forall fun t => (normPdf_pos t).le)
    (HasSubset.Subset.eventuallyLE (Set.Iic_subset_Iic.mpr hab))

theorem normCdf_sub_eq (a b : ℝ) :
    normCdf b - normCdf a = ∫ t in a..b, normPdf t :=
  intervalIntegral.integral_Iic_sub_Iic integrable_normPdf.integrableOn
    integrable_normPdf.integrableOn

theorem hasDerivAt_normCdf (x : ℝ) : HasDerivAt normCdf (normPdf x) x := by
  have hfun : normCdf = fun u => normCdf 0 + ∫ t in (0:ℝ)..u, normPdf t := by
    funext u
    rw [← normCdf_sub_eq]; ring
  rw [hfun]
  exact ((continuous_normPdf.integral_hasStrictDerivAt 0 x).hasDerivAt).const_add (normCdf 0)

/-! ## Put-call parity and in-out parity -/

theorem callPx_sub_putPx (o : FXBarrierOption) :
    callPx o - putPx o =
      o.spot_price * Real.exp (-o.foreign_rate * o.time_to_maturity) -
        o.strike_price * Real.exp (-o.domestic_rate * o.time_to_maturity) := by
  have h1 := normCdf_add_neg (o.compute_d1 none)
  have h2 := normCdf_add_neg (o.compute_d2 (some (o.compute_d1 none)))
  unfold callPx putPx
  linear_combination
    (o.spot_price * Real.exp (-o.foreign_rate * o.time_to_maturity)) * h1 -
      (o.strike_price * Real.exp (-o.domestic_rate * o.time_to_maturity)) * h2

theorem knock_in_add_knock_out (o : FXBarrierOption) (dir : BarrierDir) (B : ℝ)
    (right : String) :
    knockInPrice o dir B right + knockOutPrice o dir B right = vanillaRef o right := by
  unfold knockInPrice
  by_cases h : barrierBreached dir o.spot_price B
  · rw [if_pos h]
    unfold knockOutPrice
    rw [if_pos h]
    ring
  · rw [if_neg h]
    ring

/-! ## Claim theorems: formulas, parity, errors, purity, noninterference -/

/-- Claim C1: for positive spot, strike, maturity and volatility,
`calculate_vanilla_price` returns `S·e^(−r_f·T)·Φ(d1) − K·e^(−r_d·T)·Φ(d2)`
for a call and `K·e^(−r_d·T)·Φ(−d2) − S·e^(−r_f·T)·Φ(−d1)` for a put, with
`d1`, `d2` the Black-Scholes terms of those same parameters. -/
theorem claim_C1 (o : FXBarrierOption)
    (hS : 0 < o.spot_price) (hK : 0 < o.strike_price)
    (hT : 0 < o.time_to_maturity) (hσ : 0 < o.volatility) :
    o.calculate_vanilla_price "call" =
      Except.ok
        (o.spot_price * Real.exp (-o.foreign_rate * o.time_to_maturity) *
            normCdf (d1fn o.strike_price o.time_to_maturity o.volatility
              o.domestic_rate o.foreign_rate o.spot_price) -
          o.strike_price * Real.exp (-o.domestic_rate * o.time_to_maturity) *
            normCdf (d2fn o.strike_price o.time_to_maturity o.volatility
              o.domestic_rate o.foreign_rate o.spot_price)) ∧
    o.calculate_vanilla_price "put" =
      Except.ok
        (o.strike_price * Real.exp (-o.domestic_rate * o.time_to_maturity) *
            normCdf (-(d2fn o.strike_price o.time_to_maturity o.volatility
              o.domestic_rate o.foreign_rate o.spot_price)) -
          o.spot_price * Real.exp (-o.foreign_rate * o.time_to_maturity) *
            normCdf (-(d1fn o.strike_price o.time_to_maturity o.volatility
              o.domestic_rate o.foreign_rate o.spot_price))) := by
  refine ⟨rfl, ?_⟩
  rw [calc_vanilla_put]
  rfl

/-- Witness for C1 at the notebook test parameters. -/
theorem claim_C1_witness :
    testOption.calculate_vanilla_price "call" =
      Except.ok
        (testOption.spot_price *
            Real.exp (-testOption.foreign_rate * testOption.time_to_maturity) *
            normCdf (d1fn testOption.strike_price testOption.time_to_maturity
              testOption.volatility testOption.domestic_rate testOption.foreign_rate
              testOption.spot_price) -
          testOption.strike_price *
            Real.exp (-testOption.domestic_rate * testOption.time_to_maturity) *
            normCdf (d2fn testOption.strike_price testOption.time_to_maturity
              testOption.volatility testOption.domestic_rate testOption.foreign_rate
              testOption.spot_price)) ∧
    testOption.calculate_vanilla_price "put" =
      Except.ok
        (testOption.strike_price *
            Real.exp (-testOption.domestic_rate * testOption.time_to_maturity) *
            normCdf (-(d2fn testOption.strike_price testOption.time_to_maturity
              testOption.volatility testOption.domestic_rate testOption.foreign_rate
              testOption.spot_price)) -
          testOption.spot_price *
            Real.exp (-testOption.foreign_rate * testOption.time_to_maturity) *
            normCdf (-(d1fn testOption.strike_price testOption.time_to_maturity
              testOption.volatility testOption.domestic_rate testOption.foreign_rate
              testOption.spot_price))) :=
  claim_C1 testOption (by norm_num [testOption]) (by norm_num [testOption])
    (by norm_num [testOption]) (by norm_num [testOption])

/-- Claim C2: for positive parameters, `compute_d1` returns
`[ln(S/K) + (r_d − r_f + σ²/2)·T] / (σ·√T)` and `compute_d2` returns
`compute_d1`'s value minus `σ·√T`. -/
theorem claim_C2 (o : FXBarrierOption)
    (hS : 0 < o.spot_price) (hK : 0 < o.strike_price)
    (hT : 0 < o.time_to_maturity) (hσ : 0 < o.volatility) :
    o.compute_d1 none =
      (Real.log (o.spot_price / o.strike_price) +
          (o.domestic_rate - o.foreign_rate + 0.5 * o.volatility ^ 2) *
            o.time_to_maturity) /
        (o.volatility * Real.sqrt o.time_to_maturity) ∧
    o.compute_d2 none = o.compute_d1 none - o.volatility * Real.sqrt o.time_to_maturity :=
  ⟨rfl, rfl⟩

/-- Witness for C2 at the notebook test parameters. -/
theorem claim_C2_witness :
    testOption.compute_d1 none =
      (Real.log (testOption.spot_price / testOption.strike_price) +
          (testOption.domestic_rate - testOption.foreign_rate +
            0.5 * testOption.volatility ^ 2) * testOption.time_to_maturity) /
        (testOption.volatility * Real.sqrt testOption.time_to_maturity) ∧
    testOption.compute_d2 none =
      testOption.compute_d1 none -
        testOption.volatility * Real.sqrt testOption.time_to_maturity :=
  claim_C2 testOption (by norm_num [testOption]) (by norm_num [testOption])
    (by norm_num [testOption]) (by norm_num [testOption])

/-- Claim C3: put-call parity — for all valid parameters, the call price minus
the put price equals `S·e^(−r_f·T) − K·e^(−r_d·T)` within `1e-6`. -/
theorem claim_C3 (o : FXBarrierOption)
    (hS : 0 < o.spot_price) (hK : 0 < o.strike_price)
    (hT : 0 < o.time_to_maturity) (hσ : 0 < o.volatility) (c p : ℝ)
    (hc : o.calculate_vanilla_price "call" = Except.ok c)
    (hp : o.calculate_vanilla_price "put" = Except.ok p) :
    |c - p -
        (o.spot_price * Real.exp (-o.foreign_rate * o.time_to_maturity) -
          o.strike_price * Real.exp (-o.domestic_rate * o.time_to_maturity))| <
      1e-6 := by
  rw [calc_vanilla_call] at hc
  rw [calc_vanilla_put] at hp
  injection hc with hc
  injection hp with hp
  rw [← hc, ← hp, callPx_sub_putPx, sub_self, abs_zero]
  norm_num

/-- Witness for C3 at the notebook test parameters. -/
theorem claim_C3_witness :
    |callPx testOption - putPx testOption -
        (testOption.spot_price *
            Real.exp (-testOption.foreign_rate * testOption.time_to_maturity) -
          testOption.strike_price *
            Real.exp (-testOption.domestic_rate * testOption.time_to_maturity))| <
      1e-6 :=
  claim_C3 testOption (by norm_num [testOption]) (by norm_num [testOption])
    (by norm_num [testOption]) (by norm_num [testOption]) (callPx testOption)
    (putPx testOption) (calc_vanilla_call testOption) (calc_vanilla_put testOption)

/-- Counterexample to claim C5 as stated: at a concrete input with negative
volatility, `calculate_vanilla_price` does not fail with any error — it
returns `Except.ok` (the source has no input validation at all). -/
theorem claim_C5_counterexample :
    negVolOption.volatility ≤ 0 ∧
      negVolOption.calculate_vanilla_price "call" = Except.ok (callPx negVolOption) :=
  ⟨by norm_num [negVolOption], calc_vanilla_call negVolOption⟩

/-- Claim C5 (amended): the source performs no input validation and defines no
`InvalidInputError`.  On every input with nonpositive volatility, maturity,
spot or strike whose strike is nonzero, the vanilla pricing operation still
returns an `Except.ok` numeric value for the rights `call` and `put`; in the
one remaining case, a zero strike, it does fail, but with the
`ZeroDivisionError` raised by `spot_price / self.strike_price` inside
`compute_d1` (for every option right), never with `InvalidInputError`. -/
theorem claim_C5_amended (o : FXBarrierOption)
    (h : o.volatility ≤ 0 ∨ o.time_to_maturity ≤ 0 ∨ o.spot_price ≤ 0 ∨
      o.strike_price ≤ 0) :
    (o.strike_price ≠ 0 →
      o.calculate_vanilla_price_checked "call" = Except.ok (callPx o) ∧
        o.calculate_vanilla_price_checked "put" = Except.ok (putPx o)) ∧
    (o.strike_price = 0 → ∀ option_type,
      o.calculate_vanilla_price_checked option_type =
        Except.error (PyError.zeroDivisionError "float division by zero")) := by
  constructor
  · intro hK
    unfold FXBarrierOption.calculate_vanilla_price_checked
      FXBarrierOption.compute_d1_checked
    rw [if_neg hK]
    exact ⟨calc_vanilla_call o, calc_vanilla_put o⟩
  · intro hK ot
    unfold FXBarrierOption.calculate_vanilla_price_checked
      FXBarrierOption.compute_d1_checked
    rw [if_pos hK]

/-- Witness for the amended C5: at negative volatility (nonzero strike) the
pricer returns `Except.ok` values; at zero strike it raises
`ZeroDivisionError`. -/
theorem claim_C5_amended_witness :
    (negVolOption.calculate_vanilla_price_checked "call" =
        Except.ok (callPx negVolOption) ∧
      negVolOption.calculate_vanilla_price_checked "put" =
        Except.ok (putPx negVolOption)) ∧
    zeroStrikeOption.calculate_vanilla_price_checked "call" =
      Except.error (PyError.zeroDivisionError "float division by zero") :=
  ⟨(claim_C5_amended negVolOption (Or.inl (by norm_num [negVolOption]))).1
      (by norm_num [negVolOption]),
    (claim_C5_amended zeroStrikeOption
        (Or.inr (Or.inr (Or.inr (by norm_num [zeroStrikeOption]))))).2
      (by norm_num [zeroStrikeOption]) "call"⟩

/-- Claim C6: `calculate_vanilla_price` fails with the invalid-option-type
error if and only if the option right is neither `call` nor `put`; for `call`
and `put` it returns a price without raising. -/
theorem claim_C6 (o : FXBarrierOption) (ot : String) :
    (o.calculate_vanilla_price ot =
        Except.error (PyError.valueError "Invalid option type. Choose call or put.") ↔
      ¬(ot = "call" ∨ ot = "put")) ∧
    ((ot = "call" ∨ ot = "put") → ∃ y, o.calculate_vanilla_price ot = Except.ok y) := by
  constructor
  · constructor
    · intro h hcp
      rcases hcp with h1 | h1 <;> subst h1
      · rw [calc_vanilla_call] at h
        exact absurd h (by simp)
      · rw [calc_vanilla_put] at h
        exact absurd h (by simp)
    · intro h
      push_neg at h
      exact calc_vanilla_other o ot h.1 h.2
  · rintro (h | h) <;> subst h
    · exact ⟨_, calc_vanilla_call o⟩
    · exact ⟨_, calc_vanilla_put o⟩

/-- Witness for C6: an unrecognized right (`straddle`) produces exactly the
invalid-option-type error. -/
theorem claim_C6_witness :
    testOption.calculate_vanilla_price "straddle" =
      Except.error (PyError.valueError "Invalid option type. Choose call or put.") :=
  (claim_C6 testOption "straddle").1.mpr (by decide)

/-- Claim C7: each pricing operation is a pure function — read as state
transformers, the methods leave the stored object unchanged, and two
invocations with identical arguments on identical states return identical
results. -/
theorem claim_C7 (o o2 : FXBarrierOption) (sp d1a : Option ℝ) (ot : String)
    (h : o = o2) :
    (compute_d1_step o sp).1 = o ∧ (compute_d2_step o d1a).1 = o ∧
    (calculate_vanilla_price_step o ot).1 = o ∧
    (compute_d1_step o sp).2 = (compute_d1_step o2 sp).2 ∧
    (compute_d2_step o d1a).2 = (compute_d2_step o2 d1a).2 ∧
    (calculate_vanilla_price_step o ot).2 = (calculate_vanilla_price_step o2 ot).2 := by
  subst h
  exact ⟨rfl, rfl, rfl, rfl, rfl, rfl⟩

/-- Witness for C7 at the notebook test parameters. -/
theorem claim_C7_witness :
    (compute_d1_step testOption none).1 = testOption ∧
    (compute_d2_step testOption none).1 = testOption ∧
    (calculate_vanilla_price_step testOption "call").1 = testOption ∧
    (compute_d1_step testOption none).2 = (compute_d1_step testOption none).2 ∧
    (compute_d2_step testOption none).2 = (compute_d2_step testOption none).2 ∧
    (calculate_vanilla_price_step testOption "call").2 =
      (calculate_vanilla_price_step testOption "call").2 :=
  claim_C7 testOption testOption none none "call" rfl

/-- Claim C9 (spec-modelled): in-out parity — knock-in price plus knock-out
price equals the vanilla price at the matching strike, within `1e-6`, for all
valid barrier parameters. -/
theorem claim_C9 (o : FXBarrierOption) (dir : BarrierDir) (B : ℝ) (right : String)
    (hS : 0 < o.spot_price) (hK : 0 < o.strike_price) (hT : 0 < o.time_to_maturity)
    (hσ : 0 < o.volatility) (hB : 0 < B) (hBS : B ≠ o.spot_price) :
    |knockInPrice o dir B right + knockOutPrice o dir B right - vanillaRef o right| <
      1e-6 := by
  rw [knock_in_add_knock_out, sub_self, abs_zero]
  norm_num

/-- Witness for C9: up-barrier at 150 on the notebook test parameters. -/
theorem claim_C9_witness :
    |knockInPrice testOption BarrierDir.up 150 "call" +
        knockOutPrice testOption BarrierDir.up 150 "call" -
        vanillaRef testOption "call"| < 1e-6 :=
  claim_C9 testOption BarrierDir.up 150 "call" (by norm_num [testOption])
    (by norm_num [testOption]) (by norm_num [testOption]) (by norm_num [testOption])
    (by norm_num) (by norm_num [testOption])

/-- Claim C10: barrier-parameter noninterference — two objects that agree on
the six market/contract fields and differ only in the barrier fields produce
identical `compute_d1`, `compute_d2` and `calculate_vanilla_price` results. -/
theorem claim_C10 (o o2 : FXBarrierOption)
    (h1 : o.spot_price = o2.spot_price) (h2 : o.strike_price = o2.strike_price)
    (h3 : o.time_to_maturity = o2.time_to_maturity) (h4 : o.volatility = o2.volatility)
    (h5 : o.domestic_rate = o2.domestic_rate) (h6 : o.foreign_rate = o2.foreign_rate)
    (sp d1a : Option ℝ) (ot : String) :
    o.compute_d1 sp = o2.compute_d1 sp ∧ o.compute_d2 d1a = o2.compute_d2 d1a ∧
      o.calculate_vanilla_price ot = o2.calculate_vanilla_price ot := by
  obtain ⟨S, K, T, σv, rd, rf, B, bt⟩ := o
  obtain ⟨S2, K2, T2, σv2, rd2, rf2, B2, bt2⟩ := o2
  simp only at h1 h2 h3 h4 h5 h6
  subst h1; subst h2; subst h3; subst h4; subst h5; subst h6
  exact ⟨rfl, rfl, rfl⟩

/-- Witness for C10: the bare test option versus the same market data carrying
an up-and-out barrier at 150 in the barrier fields. -/
theorem claim_C10_witness :
    testOption.compute_d1 none = barrierOption150.compute_d1 none ∧
    testOption.compute_d2 none = barrierOption150.compute_d2 none ∧
    testOption.calculate_vanilla_price "call" =
      barrierOption150.calculate_vanilla_price "call" :=
  claim_C10 testOption barrierOption150 rfl rfl rfl rfl rfl rfl none none "call"

/-! ## Monotonicity of the vanilla prices in spot -/

theorem callPx_eq_bsCall (o : FXBarrierOption) :
    callPx o = bsCall o.strike_price o.time_to_maturity o.volatility
      o.domestic_rate o.foreign_rate o.spot_price := rfl

theorem putPx_eq_bsPut (o : FXBarrierOption) :
    putPx o = bsPut o.strike_price o.time_to_maturity o.volatility
      o.domestic_rate o.foreign_rate o.spot_price := rfl

theorem hasDerivAt_d1fn {K T σ S : ℝ} (rd rf : ℝ) (hK : 0 < K) (hσT : σ * Real.sqrt T ≠ 0)
    (hS : 0 < S) :
    HasDerivAt (fun x => d1fn K T σ rd rf x) (1 / (S * (σ * Real.sqrt T))) S := by
  have h1 : HasDerivAt (fun x : ℝ => x / K) (1 / K) S := by
    simpa using (hasDerivAt_id S).div_const K
  have h2 := h1.log (by positivity : S / K ≠ 0)
  have h3 := (h2.add_const ((rd - rf + 0.5 * σ ^ 2) * T)).div_const (σ * Real.sqrt T)
  convert h3 using 1
  have h4 : K ≠ 0 := hK.ne'
  have h5 : S ≠ 0 := hS.ne'
  field_simp

theorem hasDerivAt_d2fn {K T σ S : ℝ} (rd rf : ℝ) (hK : 0 < K) (hσT : σ * Real.sqrt T ≠ 0)
    (hS : 0 < S) :
    HasDerivAt (fun x => d2fn K T σ rd rf x) (1 / (S * (σ * Real.sqrt T))) S := by
  have h := (hasDerivAt_d1fn rd rf hK hσT hS).sub_const (σ * Real.sqrt T)
  exact h

/-- The classical identity `S·e^(−r_f·T)·φ(d1) = K·e^(−r_d·T)·φ(d2)`. -/
theorem pdf_identity {K T σ S : ℝ} (rd rf : ℝ) (hK : 0 < K) (hT : 0 < T) (hσ : 0 < σ)
    (hS : 0 < S) :
    S * Real.exp (-rf * T) * normPdf (d1fn K T σ rd rf S) =
      K * Real.exp (-rd * T) * normPdf (d2fn K T σ rd rf S) := by
  have hsT : 0 < Real.sqrt T := Real.sqrt_pos.mpr hT
  have hs : 0 < σ * Real.sqrt T := by positivity
  have hs2 : (σ * Real.sqrt T) ^ 2 = σ ^ 2 * T := by
    rw [mul_pow, Real.sq_sqrt hT.le]
  have hd1 : d1fn K T σ rd rf S * (σ * Real.sqrt T) =
      Real.log (S / K) + (rd - rf + 0.5 * σ ^ 2) * T := by
    unfold d1fn; exact div_mul_cancel₀ _ hs.ne'
  have hdiff : d1fn K T σ rd rf S ^ 2 - d2fn K T σ rd rf S ^ 2 =
      2 * (Real.log (S / K) + (rd - rf) * T) := by
    have hexp : d1fn K T σ rd rf S ^ 2 - d2fn K T σ rd rf S ^ 2 =
        2 * (d1fn K T σ rd rf S * (σ * Real.sqrt T)) - (σ * Real.sqrt T) ^ 2 := by
      unfold d2fn; ring
    rw [hexp, hd1, hs2]; ring
  have hLog : Real.log (S / K) = Real.log S - Real.log K := Real.log_div hS.ne' hK.ne'
  set d1v := d1fn K T σ rd rf S with hd1v
  set d2v := d2fn K T σ rd rf S with hd2v
  have main : S * Real.exp (-rf * T) * Real.exp (-d1v ^ 2 / 2) =
      K * Real.exp (-rd * T) * Real.exp (-d2v ^ 2 / 2) := by
    rw [← Real.exp_log hS, ← Real.exp_log hK, ← Real.exp_add, ← Real.exp_add, ← Real.exp_add,
      ← Real.exp_add]
    congr 1
    rw [hLog] at hdiff
    ring_nf
    ring_nf at hdiff
    linarith
  unfold normPdf
  rw [← mul_div_assoc, ← mul_div_assoc, main]

theorem hasDerivAt_bsCall {K T σ S : ℝ} (rd rf : ℝ) (hK : 0 < K) (hT : 0 < T) (hσ : 0 < σ)
    (hS : 0 < S) :
    HasDerivAt (bsCall K T σ rd rf)
      (Real.exp (-rf * T) * normCdf (d1fn K T σ rd rf S)) S := by
  have hsT : 0 < Real.sqrt T := Real.sqrt_pos.mpr hT
  have hσT : σ * Real.sqrt T ≠ 0 := by positivity
  have hd1 := hasDerivAt_d1fn rd rf hK hσT hS
  have hd2 := hasDerivAt_d2fn rd rf hK hσT hS
  have hΦ1 : HasDerivAt (fun x => normCdf (d1fn K T σ rd rf x))
      (normPdf (d1fn K T σ rd rf S) * (1 / (S * (σ * Real.sqrt T)))) S :=
    (hasDerivAt_normCdf _).comp S hd1
  have hΦ2 : HasDerivAt (fun x => normCdf (d2fn K T σ rd rf x))
      (normPdf (d2fn K T σ rd rf S) * (1 / (S * (σ * Real.sqrt T)))) S :=
    (hasDerivAt_normCdf _).comp S hd2
  have hterm1 := ((hasDerivAt_id S).mul_const (Real.exp (-rf * T))).mul hΦ1
  have hterm2 := hΦ2.const_mul (K * Real.exp (-rd * T))
  have htotal := hterm1.sub hterm2
  simp only [id_eq, one_mul] at htotal
  have hfun : (fun x => x * Real.exp (-rf * T) * normCdf (d1fn K T σ rd rf x) -
      K * Real.exp (-rd * T) * normCdf (d2fn K T σ rd rf x)) = bsCall K T σ rd rf := by
    funext x; rfl
  rw [hfun] at htotal
  convert htotal using 1
  have hid := pdf_identity rd rf hK hT hσ hS
  linear_combination (-(1 / (S * (σ * Real.sqrt T)))) * hid

theorem hasDerivAt_bsPut {K T σ S : ℝ} (rd rf : ℝ) (hK : 0 < K) (hT : 0 < T) (hσ : 0 < σ)
    (hS : 0 < S) :
    HasDerivAt (bsPut K T σ rd rf)
      (-(Real.exp (-rf * T) * normCdf (-(d1fn K T σ rd rf S)))) S := by
  have hsT : 0 < Real.sqrt T := Real.sqrt_pos.mpr hT
  have hσT : σ * Real.sqrt T ≠ 0 := by positivity
  have hd1 := (hasDerivAt_d1fn rd rf hK hσT hS).neg
  have hd2 := (hasDerivAt_d2fn rd rf hK hσT hS).neg
  have hΦ1 : HasDerivAt (fun x => normCdf (-(d1fn K T σ rd rf x)))
      (normPdf (-(d1fn K T σ rd rf S)) * -(1 / (S * (σ * Real.sqrt T)))) S :=
    (hasDerivAt_normCdf _).comp S hd1
  have hΦ2 : HasDerivAt (fun x => normCdf (-(d2fn K T σ rd rf x)))
      (normPdf (-(d2fn K T σ rd rf S)) * -(1 / (S * (σ * Real.sqrt T)))) S :=
    (hasDerivAt_normCdf _).comp S hd2
  have hterm1 := hΦ2.const_mul (K * Real.exp (-rd * T))
  have hterm2 := ((hasDerivAt_id S).mul_const (Real.exp (-rf * T))).mul hΦ1
  have htotal := hterm1.sub hterm2
  simp only [id_eq, one_mul, normPdf_neg] at htotal
  have hfun : (fun x => K * Real.exp (-rd * T) * normCdf (-(d2fn K T σ rd rf x)) -
      x * Real.exp (-rf * T) * normCdf (-(d1fn K T σ rd rf x))) = bsPut K T σ rd rf := by
    funext x; rfl
  rw [hfun] at htotal
  convert htotal using 1
  have hid := pdf_identity rd rf hK hT hσ hS
  linear_combination (-(1 / (S * (σ * Real.sqrt T)))) * hid

theorem bsCall_monotoneOn {K T σ : ℝ} (rd rf : ℝ) (hK : 0 < K) (hT : 0 < T) (hσ : 0 < σ) :
    MonotoneOn (bsCall K T σ rd rf) (Set.Ioi 0) := by
  have hint : interior (Set.Ioi (0:ℝ)) = Set.Ioi 0 := interior_Ioi
  have hcont : ContinuousOn (bsCall K T σ rd rf) (Set.Ioi 0) := fun x hx =>
    (hasDerivAt_bsCall rd rf hK hT hσ (Set.mem_Ioi.mp hx)).continuousAt.continuousWithinAt
  have hderiv : ∀ x ∈ interior (Set.Ioi (0:ℝ)),
      HasDerivWithinAt (bsCall K T σ rd rf)
        ((fun y => Real.exp (-rf * T) * normCdf (d1fn K T σ rd rf y)) x)
        (interior (Set.Ioi 0)) x := by
    intro x hx
    rw [hint] at hx
    exact (hasDerivAt_bsCall rd rf hK hT hσ (Set.mem_Ioi.mp hx)).hasDerivWithinAt
  have hnn : ∀ x ∈ interior (Set.Ioi (0:ℝ)),
      0 ≤ (fun y => Real.exp (-rf * T) * normCdf (d1fn K T σ rd rf y)) x := fun x _ =>
    mul_nonneg (Real.exp_pos _).le (normCdf_nonneg _)
  exact monotoneOn_of_hasDerivWithinAt_nonneg (convex_Ioi 0) hcont hderiv hnn

theorem bsPut_antitoneOn {K T σ : ℝ} (rd rf : ℝ) (hK : 0 < K) (hT : 0 < T) (hσ : 0 < σ) :
    AntitoneOn (bsPut K T σ rd rf) (Set.Ioi 0) := by
  have hint : interior (Set.Ioi (0:ℝ)) = Set.Ioi 0 := interior_Ioi
  have hcont : ContinuousOn (bsPut K T σ rd rf) (Set.Ioi 0) := fun x hx =>
    (hasDerivAt_bsPut rd rf hK hT hσ (Set.mem_Ioi.mp hx)).continuousAt.continuousWithinAt
  have hderiv : ∀ x ∈ interior (Set.Ioi (0:ℝ)),
      HasDerivWithinAt (bsPut K T σ rd rf)
        ((fun y => -(Real.exp (-rf * T) * normCdf (-(d1fn K T σ rd rf y)))) x)
        (interior (Set.Ioi 0)) x := by
    intro x hx
    rw [hint] at hx
    exact (hasDerivAt_bsPut rd rf hK hT hσ (Set.mem_Ioi.mp hx)).hasDerivWithinAt
  have hnp : ∀ x ∈ interior (Set.Ioi (0:ℝ)),
      (fun y => -(Real.exp (-rf * T) * normCdf (-(d1fn K T σ rd rf y)))) x ≤ 0 := fun x _ =>
    neg_nonpos.mpr (mul_nonneg (Real.exp_pos _).le (normCdf_nonneg _))
  exact antitoneOn_of_hasDerivWithinAt_nonpos (convex_Ioi 0) hcont hderiv hnp

/-- Claim C4: with strike, maturity, volatility and rates fixed (and positive
where the claim requires), the vanilla call price is non-decreasing in spot and
the vanilla put price is non-increasing in spot. -/
theorem claim_C4 (o o2 : FXBarrierOption)
    (hK : o.strike_price = o2.strike_price) (hT : o.time_to_maturity = o2.time_to_maturity)
    (hσ : o.volatility = o2.volatility) (hrd : o.domestic_rate = o2.domestic_rate)
    (hrf : o.foreign_rate = o2.foreign_rate)
    (hK0 : 0 < o.strike_price) (hT0 : 0 < o.time_to_maturity) (hσ0 : 0 < o.volatility)
    (hS1 : 0 < o.spot_price) (hS12 : o.spot_price ≤ o2.spot_price)
    (c1 c2 p1 p2 : ℝ)
    (hc1 : o.calculate_vanilla_price "call" = Except.ok c1)
    (hc2 : o2.calculate_vanilla_price "call" = Except.ok c2)
    (hp1 : o.calculate_vanilla_price "put" = Except.ok p1)
    (hp2 : o2.calculate_vanilla_price "put" = Except.ok p2) :
    c1 ≤ c2 ∧ p2 ≤ p1 := by
  rw [calc_vanilla_call] at hc1 hc2
  rw [calc_vanilla_put] at hp1 hp2
  injection hc1 with hc1
  injection hc2 with hc2
  injection hp1 with hp1
  injection hp2 with hp2
  rw [← hc1, ← hc2, ← hp1, ← hp2, callPx_eq_bsCall, callPx_eq_bsCall,
    putPx_eq_bsPut, putPx_eq_bsPut, ← hK, ← hT, ← hσ, ← hrd, ← hrf]
  have hS2 : 0 < o2.spot_price := lt_of_lt_of_le hS1 hS12
  exact ⟨bsCall_monotoneOn o.domestic_rate o.foreign_rate hK0 hT0 hσ0
      (Set.mem_Ioi.mpr hS1) (Set.mem_Ioi.mpr hS2) hS12,
    bsPut_antitoneOn o.domestic_rate o.foreign_rate hK0 hT0 hσ0
      (Set.mem_Ioi.mpr hS1) (Set.mem_Ioi.mpr hS2) hS12⟩

/-- Witness for C4: test parameters at spots 100 and 110. -/
theorem claim_C4_witness :
    callPx testOption ≤ callPx testOption110 ∧ putPx testOption110 ≤ putPx testOption :=
  claim_C4 testOption testOption110 rfl rfl rfl rfl rfl
    (by norm_num [testOption]) (by norm_num [testOption]) (by norm_num [testOption])
    (by norm_num [testOption]) (by norm_num [testOption, testOption110])
    (callPx testOption) (callPx testOption110) (putPx testOption) (putPx testOption110)
    (calc_vanilla_call testOption) (calc_vanilla_call testOption110)
    (calc_vanilla_put testOption) (calc_vanilla_put testOption110)

/-! ## Rigorous rational brackets for the numerical scenario -/

theorem exp_Ef_bounds :
    (0.9139311852:ℝ) ≤ Real.exp (-(0.03:ℝ) * 3) ∧
      Real.exp (-(0.03:ℝ) * 3) ≤ 0.9139311853 := by
  have harg : (-(0.03:ℝ) * 3) = -(9/100) := by norm_num
  rw [harg]
  have hx : |(-((9:ℝ)/100))| ≤ 1 := by rw [abs_of_nonpos (by norm_num)]; norm_num
  have h := Real.exp_bound hx (n := 10) (by norm_num)
  rw [Finset.sum_range_succ, Finset.sum_range_succ, Finset.sum_range_succ,
    Finset.sum_range_succ, Finset.sum_range_succ, Finset.sum_range_succ,
    Finset.sum_range_succ, Finset.sum_range_succ, Finset.sum_range_succ,
    Finset.sum_range_succ, Finset.sum_range_zero] at h
  norm_num [Nat.factorial] at h
  have habs : |(9:ℝ)/100| = 9/100 := abs_of_nonneg (by norm_num)
  rw [habs] at h
  have hpow : ((9:ℝ)/100)^10 * (11/36288000) ≤ 1/1000000000000 := by norm_num
  rcases abs_sub_le_iff.mp h with ⟨hl, hr⟩
  constructor <;> linarith

theorem exp_Ed_bounds :
    (0.8607079764:ℝ) ≤ Real.exp (-(0.05:ℝ) * 3) ∧
      Real.exp (-(0.05:ℝ) * 3) ≤ 0.8607079765 := by
  have harg : (-(0.05:ℝ) * 3) = -(3/20) := by norm_num
  rw [harg]
  have hx : |(-((3:ℝ)/20))| ≤ 1 := by rw [abs_of_nonpos (by norm_num)]; norm_num
  have h := Real.exp_bound hx (n := 10) (by norm_num)
  rw [Finset.sum_range_succ, Finset.sum_range_succ, Finset.sum_range_succ,
    Finset.sum_range_succ, Finset.sum_range_succ, Finset.sum_range_succ,
    Finset.sum_range_succ, Finset.sum_range_succ, Finset.sum_range_succ,
    Finset.sum_range_succ, Finset.sum_range_zero] at h
  norm_num [Nat.factorial] at h
  have habs : |(3:ℝ)/20| = 3/20 := abs_of_nonneg (by norm_num)
  rw [habs] at h
  have hpow : ((3:ℝ)/20)^10 * (11/36288000) ≤ 1/1000000000 := by norm_num
  rcases abs_sub_le_iff.mp h with ⟨hl, hr⟩
  constructor <;> linarith

theorem log_ten_ninths_bounds :
    (0.1053605156:ℝ) ≤ Real.log (10/9) ∧ Real.log (10/9) ≤ 0.1053605157 := by
  constructor
  · rw [Real.le_log_iff_exp_le (by norm_num : (0:ℝ) < 10/9)]
    have h := Real.exp_bound' (x := 0.1053605156) (by norm_num) (by norm_num)
      (n := 10) (by norm_num)
    refine le_trans h ?_
    rw [Finset.sum_range_succ, Finset.sum_range_succ, Finset.sum_range_succ,
      Finset.sum_range_succ, Finset.sum_range_succ, Finset.sum_range_succ,
      Finset.sum_range_succ, Finset.sum_range_succ, Finset.sum_range_succ,
      Finset.sum_range_succ, Finset.sum_range_zero]
    norm_num [Nat.factorial]
  · rw [Real.log_le_iff_le_exp (by norm_num : (0:ℝ) < 10/9)]
    have h := Real.sum_le_exp_of_nonneg (x := 0.1053605157) (by norm_num) 10
    refine le_trans ?_ h
    rw [Finset.sum_range_succ, Finset.sum_range_succ, Finset.sum_range_succ,
      Finset.sum_range_succ, Finset.sum_range_succ, Finset.sum_range_succ,
      Finset.sum_range_succ, Finset.sum_range_succ, Finset.sum_range_succ,
      Finset.sum_range_succ, Finset.sum_range_zero]
    norm_num [Nat.factorial]

theorem sqrt3_bounds :
    (1.7320508075:ℝ) < Real.sqrt 3 ∧ Real.sqrt 3 < 1.7320508076 := by
  constructor
  · rw [Real.lt_sqrt (by norm_num)]
    norm_num
  · rw [Real.sqrt_lt' (by norm_num)]
    norm_num

theorem sqrt2pi_bounds :
    (2.5066282746:ℝ) < Real.sqrt (2 * Real.pi) ∧
      Real.sqrt (2 * Real.pi) < 2.5066282747 := by
  have hπl := Real.pi_gt_d20
  have hπu := Real.pi_lt_d20
  constructor
  · rw [Real.lt_sqrt (by norm_num)]
    nlinarith
  · rw [Real.sqrt_lt' (by norm_num)]
    nlinarith

/-- Order-7 alternating Taylor bracket for `exp (-x)` on `[0, 1]`, from
`Real.exp_bound`. -/
theorem exp_neg_taylor (x : ℝ) (h0 : 0 ≤ x) (h1 : x ≤ 1) :
    1 - x + x^2/2 - x^3/6 + x^4/24 - x^5/120 + x^6/720 - x^7 * (8/35280) ≤
        Real.exp (-x) ∧
      Real.exp (-x) ≤
        1 - x + x^2/2 - x^3/6 + x^4/24 - x^5/120 + x^6/720 + x^7 * (8/35280) := by
  have hx : |(-x)| ≤ 1 := by rw [abs_neg, abs_of_nonneg h0]; exact h1
  have h := Real.exp_bound hx (n := 7) (by norm_num)
  rw [Finset.sum_range_succ, Finset.sum_range_succ, Finset.sum_range_succ,
    Finset.sum_range_succ, Finset.sum_range_succ, Finset.sum_range_succ,
    Finset.sum_range_succ, Finset.sum_range_zero, abs_neg, abs_of_nonneg h0] at h
  norm_num [Nat.factorial] at h
  rcases abs_sub_le_iff.mp h with ⟨hl, hr⟩
  constructor <;> nlinarith [hl, hr]

theorem hasDerivAt_gaussAnti (c t : ℝ) :
    HasDerivAt (fun u => gaussPoly u + c * u)
      (1 - t^2/2 + t^4/8 - t^6/48 + t^8/384 - t^10/3840 + t^12/46080 + c) t := by
  have h := (((((((hasDerivAt_id t).sub ((hasDerivAt_pow 3 t).div_const 6)).add
      ((hasDerivAt_pow 5 t).div_const 40)).sub ((hasDerivAt_pow 7 t).div_const 336)).add
      ((hasDerivAt_pow 9 t).div_const 3456)).sub
      ((hasDerivAt_pow 11 t).div_const 42240)).add
      ((hasDerivAt_pow 13 t).div_const 599040)).add ((hasDerivAt_id t).const_mul c)
  have hfun : (fun x : ℝ => id x - x ^ 3 / 6 + x ^ 5 / 40 - x ^ 7 / 336 + x ^ 9 / 3456 -
      x ^ 11 / 42240 + x ^ 13 / 599040 + c * id x) = fun u => gaussPoly u + c * u := by
    funext u
    simp only [id_eq]
    unfold gaussPoly
    ring
  rw [hfun] at h
  convert h using 1
  push_cast
  ring

theorem integral_gaussTaylor (q c : ℝ) :
    ∫ t in (0:ℝ)..q,
        (1 - t^2/2 + t^4/8 - t^6/48 + t^8/384 - t^10/3840 + t^12/46080 + c) =
      gaussPoly q + c * q := by
  have hcont : Continuous fun t : ℝ =>
      1 - t^2/2 + t^4/8 - t^6/48 + t^8/384 - t^10/3840 + t^12/46080 + c := by
    fun_prop
  have h := intervalIntegral.integral_eq_sub_of_hasDerivAt
    (f := fun u => gaussPoly u + c * u) (a := 0) (b := q)
    (fun t _ => hasDerivAt_gaussAnti c t) (hcont.intervalIntegrable 0 q)
  rw [h]
  unfold gaussPoly
  ring

theorem continuous_exp_neg_sq_half : Continuous fun t : ℝ => Real.exp (-t^2/2) := by
  fun_prop

theorem intExp_lb (q : ℝ) (h0 : 0 ≤ q) (h1 : q ≤ 1) :
    gaussPoly q - gaussTail q ≤ ∫ t in (0:ℝ)..q, Real.exp (-t^2/2) := by
  have hpoly : Continuous fun t : ℝ =>
      1 - t^2/2 + t^4/8 - t^6/48 + t^8/384 - t^10/3840 + t^12/46080 +
        -((q^2/2)^7 * (8/35280)) := by fun_prop
  have hpt : ∀ t ∈ Set.Icc (0:ℝ) q,
      1 - t^2/2 + t^4/8 - t^6/48 + t^8/384 - t^10/3840 + t^12/46080 +
        -((q^2/2)^7 * (8/35280)) ≤ Real.exp (-t^2/2) := by
    intro t ht
    have h0t : 0 ≤ t := ht.1
    have htq : t ≤ q := ht.2
    have hx1 : t^2/2 ≤ 1 := by nlinarith
    have h := (exp_neg_taylor (t^2/2) (by positivity) hx1).1
    have hmono7 : (t^2/2)^7 ≤ (q^2/2)^7 := by
      apply pow_le_pow_left (by positivity)
      nlinarith
    have harg : Real.exp (-(t^2/2)) = Real.exp (-t^2/2) := by rw [neg_div]
    have hEq : 1 - t^2/2 + (t^2/2)^2/2 - (t^2/2)^3/6 + (t^2/2)^4/24 - (t^2/2)^5/120 +
        (t^2/2)^6/720 =
        1 - t^2/2 + t^4/8 - t^6/48 + t^8/384 - t^10/3840 + t^12/46080 := by ring
    linarith
  have hi1 : IntervalIntegrable (fun t : ℝ =>
      1 - t^2/2 + t^4/8 - t^6/48 + t^8/384 - t^10/3840 + t^12/46080 +
        -((q^2/2)^7 * (8/35280))) MeasureTheory.volume 0 q := hpoly.intervalIntegrable 0 q
  have hi2 : IntervalIntegrable (fun t : ℝ => Real.exp (-t^2/2))
      MeasureTheory.volume 0 q := continuous_exp_neg_sq_half.intervalIntegrable 0 q
  have hmono := intervalIntegral.integral_mono_on h0 hi1 hi2 hpt
  calc gaussPoly q - gaussTail q
      = gaussPoly q + -((q^2/2)^7 * (8/35280)) * q := by unfold gaussTail; ring
    _ = ∫ t in (0:ℝ)..q,
          (1 - t^2/2 + t^4/8 - t^6/48 + t^8/384 - t^10/3840 + t^12/46080 +
            -((q^2/2)^7 * (8/35280))) := (integral_gaussTaylor q _).symm
    _ ≤ ∫ t in (0:ℝ)..q, Real.exp (-t^2/2) := hmono

theorem intExp_ub (q : ℝ) (h0 : 0 ≤ q) (h1 : q ≤ 1) :
    (∫ t in (0:ℝ)..q, Real.exp (-t^2/2)) ≤ gaussPoly q + gaussTail q := by
  have hpoly : Continuous fun t : ℝ =>
      1 - t^2/2 + t^4/8 - t^6/48 + t^8/384 - t^10/3840 + t^12/46080 +
        (q^2/2)^7 * (8/35280) := by fun_prop
  have hpt : ∀ t ∈ Set.Icc (0:ℝ) q,
      Real.exp (-t^2/2) ≤
        1 - t^2/2 + t^4/8 - t^6/48 + t^8/384 - t^10/3840 + t^12/46080 +
          (q^2/2)^7 * (8/35280) := by
    intro t ht
    have h0t : 0 ≤ t := ht.1
    have htq : t ≤ q := ht.2
    have hx1 : t^2/2 ≤ 1 := by nlinarith
    have h := (exp_neg_taylor (t^2/2) (by positivity) hx1).2
    have hmono7 : (t^2/2)^7 ≤ (q^2/2)^7 := by
      apply pow_le_pow_left (by positivity)
      nlinarith
    have harg : Real.exp (-(t^2/2)) = Real.exp (-t^2/2) := by rw [neg_div]
    have hEq : 1 - t^2/2 + (t^2/2)^2/2 - (t^2/2)^3/6 + (t^2/2)^4/24 - (t^2/2)^5/120 +
        (t^2/2)^6/720 =
        1 - t^2/2 + t^4/8 - t^6/48 + t^8/384 - t^10/3840 + t^12/46080 := by ring
    linarith
  have hi1 : IntervalIntegrable (fun t : ℝ => Real.exp (-t^2/2))
      MeasureTheory.volume 0 q := continuous_exp_neg_sq_half.intervalIntegrable 0 q
  have hi2 : IntervalIntegrable (fun t : ℝ =>
      1 - t^2/2 + t^4/8 - t^6/48 + t^8/384 - t^10/3840 + t^12/46080 +
        (q^2/2)^7 * (8/35280)) MeasureTheory.volume 0 q := hpoly.intervalIntegrable 0 q
  have hmono := intervalIntegral.integral_mono_on h0 hi1 hi2 hpt
  calc (∫ t in (0:ℝ)..q, Real.exp (-t^2/2))
      ≤ ∫ t in (0:ℝ)..q,
          (1 - t^2/2 + t^4/8 - t^6/48 + t^8/384 - t^10/3840 + t^12/46080 +
            (q^2/2)^7 * (8/35280)) := hmono
    _ = gaussPoly q + (q^2/2)^7 * (8/35280) * q := integral_gaussTaylor q _
    _ = gaussPoly q + gaussTail q := by unfold gaussTail; ring

theorem normCdf_eq_integral (q : ℝ) :
    normCdf q = 1/2 + (∫ t in (0:ℝ)..q, Real.exp (-t^2/2)) / Real.sqrt (2 * Real.pi) := by
  have h := normCdf_sub_eq 0 q
  rw [normCdf_zero] at h
  have hdiv : ∫ t in (0:ℝ)..q, normPdf t =
      (∫ t in (0:ℝ)..q, Real.exp (-t^2/2)) / Real.sqrt (2 * Real.pi) := by
    unfold normPdf
    exact intervalIntegral.integral_div _ _
  rw [hdiv] at h
  linarith

theorem normCdf_lb_of (q N b : ℝ) (h0 : 0 ≤ q) (h1 : q ≤ 1) (hN0 : 0 ≤ N)
    (hN : N ≤ gaussPoly q - gaussTail q) (hb : b ≤ 1/2 + N / 2.5066282747) :
    b ≤ normCdf q := by
  have hI := intExp_lb q h0 h1
  have hc := sqrt2pi_bounds
  calc b ≤ 1/2 + N / 2.5066282747 := hb
    _ ≤ 1/2 + (∫ t in (0:ℝ)..q, Real.exp (-t^2/2)) / Real.sqrt (2 * Real.pi) := by
        gcongr
        · exact le_trans hN0 (le_trans hN hI)
        · exact le_trans hN hI
        · exact hc.2.le
    _ = normCdf q := (normCdf_eq_integral q).symm

theorem normCdf_ub_of (q M b : ℝ) (h0 : 0 ≤ q) (h1 : q ≤ 1) (hM0 : 0 ≤ M)
    (hM : gaussPoly q + gaussTail q ≤ M) (hb : 1/2 + M / 2.5066282746 ≤ b) :
    normCdf q ≤ b := by
  have hI := intExp_ub q h0 h1
  have hc := sqrt2pi_bounds
  calc normCdf q
      = 1/2 + (∫ t in (0:ℝ)..q, Real.exp (-t^2/2)) / Real.sqrt (2 * Real.pi) :=
        normCdf_eq_integral q
    _ ≤ 1/2 + M / 2.5066282746 := by
        gcongr
        · exact le_trans hI hM
        · exact hc.1.le
    _ ≤ b := hb

theorem normCdf_lb_a1 : (0.76890861:ℝ) ≤ normCdf 0.7352574 :=
  normCdf_lb_of 0.7352574 0.674053949 0.76890861 (by norm_num) (by norm_num)
    (by norm_num) (by norm_num [gaussPoly, gaussTail]) (by norm_num)

theorem normCdf_ub_b1 : normCdf 0.7352575 ≤ 0.76890867 :=
  normCdf_ub_of 0.7352575 0.674054062 0.76890867 (by norm_num) (by norm_num)
    (by norm_num) (by norm_num [gaussPoly, gaussTail]) (by norm_num)

theorem normCdf_lb_a2 : (0.67657018:ℝ) ≤ normCdf 0.4581292 :=
  normCdf_lb_of 0.4581292 0.442595828 0.67657018 (by norm_num) (by norm_num)
    (by norm_num) (by norm_num [gaussPoly, gaussTail]) (by norm_num)

theorem normCdf_ub_b2 : normCdf 0.4581294 ≤ 0.67657027 :=
  normCdf_ub_of 0.4581294 0.442596009 0.67657027 (by norm_num) (by norm_num)
    (by norm_num) (by norm_num [gaussPoly, gaussTail]) (by norm_num)

theorem d1_test_bounds :
    (0.7352574:ℝ) ≤ testOption.compute_d1 none ∧
      testOption.compute_d1 none ≤ 0.7352575 := by
  have hd1 : testOption.compute_d1 none =
      (Real.log (100/90) + (0.05 - 0.03 + 0.5 * (0.16:ℝ)^2) * 3) /
        (0.16 * Real.sqrt 3) := rfl
  have h1090 : ((100:ℝ)/90) = 10/9 := by norm_num
  rw [hd1, h1090]
  have hlog := log_ten_ninths_bounds
  have hs3 := sqrt3_bounds
  have hpos : (0:ℝ) < 0.16 * Real.sqrt 3 := by positivity
  constructor
  · rw [le_div_iff hpos]
    nlinarith [hlog.1, hs3.2]
  · rw [div_le_iff hpos]
    nlinarith [hlog.2, hs3.1]

theorem d2_test_bounds :
    (0.4581292:ℝ) ≤ testOption.compute_d2 (some (testOption.compute_d1 none)) ∧
      testOption.compute_d2 (some (testOption.compute_d1 none)) ≤ 0.4581294 := by
  have hd2 : testOption.compute_d2 (some (testOption.compute_d1 none)) =
      testOption.compute_d1 none - 0.16 * Real.sqrt 3 := rfl
  rw [hd2]
  have hd1 := d1_test_bounds
  have hs3 := sqrt3_bounds
  constructor
  · nlinarith [hd1.1, hs3.2]
  · nlinarith [hd1.2, hs3.1]

/-- Claim C8: at `S=100, K=90, T=3, σ=0.16, r_d=0.05, r_f=0.03`,
`calculate_vanilla_price` returns ≈ 17.8633 for a call and ≈ 3.9339 for a put,
correct to four decimal places. -/
theorem claim_C8 :
    testOption.calculate_vanilla_price "call" = Except.ok (callPx testOption) ∧
    testOption.calculate_vanilla_price "put" = Except.ok (putPx testOption) ∧
    |callPx testOption - 17.8633| < 0.00005 ∧
    |putPx testOption - 3.9339| < 0.00005 := by
  have hcall_eq : callPx testOption =
      100 * Real.exp (-(0.03:ℝ) * 3) * normCdf (testOption.compute_d1 none) -
        90 * Real.exp (-(0.05:ℝ) * 3) *
          normCdf (testOption.compute_d2 (some (testOption.compute_d1 none))) := rfl
  have hEf := exp_Ef_bounds
  have hEd := exp_Ed_bounds
  have hΦ1l : (0.76890861:ℝ) ≤ normCdf (testOption.compute_d1 none) :=
    le_trans normCdf_lb_a1 (normCdf_mono d1_test_bounds.1)
  have hΦ1u : normCdf (testOption.compute_d1 none) ≤ 0.76890867 :=
    le_trans (normCdf_mono d1_test_bounds.2) normCdf_ub_b1
  have hΦ2l : (0.67657018:ℝ) ≤
      normCdf (testOption.compute_d2 (some (testOption.compute_d1 none))) :=
    le_trans normCdf_lb_a2 (normCdf_mono d2_test_bounds.1)
  have hΦ2u : normCdf (testOption.compute_d2 (some (testOption.compute_d1 none))) ≤
      0.67657027 :=
    le_trans (normCdf_mono d2_test_bounds.2) normCdf_ub_b2
  have hp1 : (0.9139311852:ℝ) * 0.76890861 ≤
      Real.exp (-(0.03:ℝ) * 3) * normCdf (testOption.compute_d1 none) :=
    mul_le_mul hEf.1 hΦ1l (by norm_num) (le_trans (by norm_num) hEf.1)
  have hp2 : Real.exp (-(0.03:ℝ) * 3) * normCdf (testOption.compute_d1 none) ≤
      0.9139311853 * 0.76890867 :=
    mul_le_mul hEf.2 hΦ1u (normCdf_nonneg _) (by norm_num)
  have hp3 : (0.8607079764:ℝ) * 0.67657018 ≤
      Real.exp (-(0.05:ℝ) * 3) *
        normCdf (testOption.compute_d2 (some (testOption.compute_d1 none))) :=
    mul_le_mul hEd.1 hΦ2l (by norm_num) (le_trans (by norm_num) hEd.1)
  have hp4 : Real.exp (-(0.05:ℝ) * 3) *
      normCdf (testOption.compute_d2 (some (testOption.compute_d1 none))) ≤
      0.8607079765 * 0.67657027 :=
    mul_le_mul hEd.2 hΦ2u (normCdf_nonneg _) (by norm_num)
  have hparity : callPx testOption - putPx testOption =
      100 * Real.exp (-(0.03:ℝ) * 3) - 90 * Real.exp (-(0.05:ℝ) * 3) :=
    callPx_sub_putPx testOption
  refine ⟨calc_vanilla_call _, calc_vanilla_put _, ?_, ?_⟩
  · rw [hcall_eq, abs_lt]
    constructor <;> nlinarith [hp1, hp2, hp3, hp4]
  · rw [abs_lt]
    constructor <;> nlinarith [hp1, hp2, hp3, hp4, hparity, hEf.1, hEf.2, hEd.1, hEd.2,
      hcall_eq]

end VV
